import Mathlib

/-!
Verification of the mqttnotifier core (src/mqttnotifier.py): a shallow
embedding of the topic-to-format resolution and rendering pipeline and of
the notification-delivery backoff loop, together with theorems checking
the natural-language specification against it.

External collaborators of the program (the paho topic matcher, the Python
json / str standard-library functions, the jinja2 renderer, the D-Bus
notification service) are not part of src/; they are modelled from the
spec where their behaviour decides a claim, or passed in as abstract
parameters (PyEnv, outcome scripts) where only their interface matters.
-/

/-- A format entry: the optional keys a per-topic TOML table (or the
command-line override dict) may carry, as listed in the configuration
schema.  An unset key is `none`; `DEFAULT_FORMAT | fmt` dict-union acts
key-wise on this fixed shape. -/
structure FormatEntry where
  title : Option String
  body : Option String
  icon : Option String
  urgency : Option String
  muted : Option Bool
  timeout : Option ℚ
  category : Option String

/-- The empty entry: a TOML table with no keys set (the `fmt = {}` that
`on_message` substitutes when `find_format` raises `KeyError`). -/
def emptyFormat : FormatEntry :=
  { title := none, body := none, icon := none, urgency := none,
    muted := none, timeout := none, category := none }

/-- `DEFAULT_FORMAT` from the source: title and body templates set, all
other keys absent. -/
def DEFAULT_FORMAT : FormatEntry :=
  { emptyFormat with
    title := some "\x7b\x7btitle\x7d\x7d",
    body := some "\x7b\x7bbody\x7d\x7d" }

/-- One key of a dict union `d | e`: the right operand's value when that
key is present there, otherwise the left operand's. -/
def setKey {α : Type} (dv ev : Option α) : Option α :=
  match ev with
  | some v => some v
  | none => dv

/-- The dict union `DEFAULT_FORMAT | fmt` of the source, restricted to the
fixed key shape: key-wise, the entry `e` wins where it sets a key, the
default `d` fills the rest. -/
def mergeFmt (d e : FormatEntry) : FormatEntry :=
  { title := setKey d.title e.title,
    body := setKey d.body e.body,
    icon := setKey d.icon e.icon,
    urgency := setKey d.urgency e.urgency,
    muted := setKey d.muted e.muted,
    timeout := setKey d.timeout e.timeout,
    category := setKey d.category e.category }

/-- Modelled from the spec: the broker wildcard matching used by
`mqtt.topic_matches_sub` of the paho library (an external collaborator,
not in src/).  Both topic filter and topic are split at the slashes;
matching is anchored, a single-level wildcard matches exactly one
segment, and a multi-level wildcard matches all (zero or more) remaining
segments. -/
def wildMatch : List String → List String → Bool
  | [], t => t.isEmpty
  | x :: s, [] => x == "#" && s.isEmpty
  | x :: s, y :: t =>
    if x == "#" && s.isEmpty then true
    else if x == "+" then wildMatch s t
    else x == y && wildMatch s t

/-- Python `s.split('/')`: slash-delimited segments, with the empty
string yielding one empty segment, written on the character list. -/
def splitSegs : List Char → List String
  | [] => [""]
  | c :: rest =>
    if c = '/' then "" :: splitSegs rest
    else
      match splitSegs rest with
      | [] => [String.singleton c]
      | s :: ss => (String.singleton c ++ s) :: ss

/-- Modelled from the spec: `mqtt.topic_matches_sub(sub, topic)` — split
filter and topic into slash-delimited segments and match with the
anchored wildcard semantics. -/
def topic_matches_sub (sub topic : String) : Bool :=
  wildMatch (splitSegs sub.data) (splitSegs topic.data)

/-- `Notifier.find_format`: walk the registry pairs in declaration order
and return the first entry whose pattern matches the topic; `none` stands
for the `KeyError` the source raises when nothing matches. -/
def find_format (topics : List (String × FormatEntry)) (topic : String) :
    Option FormatEntry :=
  match topics with
  | [] => none
  | p :: rest =>
    if topic_matches_sub p.1 topic then some p.2 else find_format rest topic

/-- The resolution actually used by the pipeline: `on_message` catches the
`KeyError` from `find_format`, logs a warning and continues with the
empty entry `fmt = \x7b\x7d`. -/
def resolveFormat (topics : List (String × FormatEntry)) (topic : String) :
    FormatEntry :=
  (find_format topics topic).getD emptyFormat

/-- `BACK_OFF`: the starting (and reset) backoff delay, 0 seconds. -/
def BACK_OFF : ℚ := 0

/-- `BACK_OFF_PROGRESSION`: the 1.5 growth factor. -/
def BACK_OFF_PROGRESSION : ℚ := 3 / 2

/-- `BACK_OFF_CUTOFF`: the 300-second cap. -/
def BACK_OFF_CUTOFF : ℚ := 300

/-- `NOTIFICATION_DURATION`: default notification display duration. -/
def NOTIFICATION_DURATION : ℤ := 15

/-- The backoff update of `Notifier.notify`:
`self.back_off = 1 if not self.back_off else
 min(self.back_off*BACK_OFF_PROGRESSION, BACK_OFF_CUTOFF)`.
Backoff values stay exact in ℚ (products of 1.5 and 300 are exactly
representable in the float range the loop can reach). -/
def backOffGrow (b : ℚ) : ℚ :=
  if b = 0 then 1 else min (b * BACK_OFF_PROGRESSION) BACK_OFF_CUTOFF

/-- The backoff sequence the spec describes, written from its words: the
first sleep is 0, the next 1, and from then on the previous delay times
1.5 capped at 300. -/
def specSeq : ℕ → ℚ
  | 0 => 0
  | n + 1 =>
    match n with
    | 0 => 1
    | _ + 1 => min (specSeq n * (3 / 2)) 300

/-- Is a byte a UTF-8 continuation byte (0x80–0xBF)? -/
def isCont (b : ℕ) : Bool := 128 ≤ b && b ≤ 191

/-- `msg.payload.decode('utf-8', errors='ignore')` at the code-point
level: decode a byte list as UTF-8, dropping the bytes of every invalid
or truncated sequence (CPython drops the maximal valid subpart of a bad
sequence and resumes at the first offending byte). -/
def utf8Decode : List ℕ → List ℕ
  | [] => []
  | b :: rest =>
    if b < 128 then b :: utf8Decode rest
    else if b < 194 then utf8Decode rest
    else if b ≤ 223 then
      match rest with
      | [] => []
      | b2 :: rest2 =>
        if isCont b2 then
          ((b - 192) * 64 + (b2 - 128)) :: utf8Decode rest2
        else utf8Decode (b2 :: rest2)
    else if b ≤ 239 then
      match rest with
      | [] => []
      | b2 :: rest2 =>
        if (if b = 224 then 160 else 128) ≤ b2 &&
           b2 ≤ (if b = 237 then 159 else 191) then
          match rest2 with
          | [] => []
          | b3 :: rest3 =>
            if isCont b3 then
              ((b - 224) * 4096 + (b2 - 128) * 64 + (b3 - 128)) ::
                utf8Decode rest3
            else utf8Decode (b3 :: rest3)
        else utf8Decode (b2 :: rest2)
    else if b ≤ 244 then
      match rest with
      | [] => []
      | b2 :: rest2 =>
        if (if b = 240 then 144 else 128) ≤ b2 &&
           b2 ≤ (if b = 244 then 143 else 191) then
          match rest2 with
          | [] => []
          | b3 :: rest3 =>
            if isCont b3 then
              match rest3 with
              | [] => []
              | b4 :: rest4 =>
                if isCont b4 then
                  ((b - 240) * 262144 + (b2 - 128) * 4096 +
                    (b3 - 128) * 64 + (b4 - 128)) :: utf8Decode rest4
                else utf8Decode (b4 :: rest4)
            else utf8Decode (b3 :: rest3)
        else utf8Decode (b2 :: rest2)
    else utf8Decode rest

/-- The decoded payload as a string (all code points produced by
`utf8Decode` are valid scalar values). -/
def utf8DecodeStr (bs : List ℕ) : String :=
  String.mk ((utf8Decode bs).map Char.ofNat)

/-- The JSON values `json.loads` can produce. -/
inductive JValue where
  | null : JValue
  | boolean : Bool → JValue
  | num : ℚ → JValue
  | str : String → JValue
  | arr : List JValue → JValue
  | obj : List (String × JValue) → JValue

/-- Modelled from the spec: the Python standard-library collaborators the
pipeline calls, passed in abstractly.  `jsonLoads` is `json.loads` with a
`JSONDecodeError` / `ValueError` rendered as `none` (exactly the
exceptions `on_message` catches); `pyStr` is Python `str(...)` on a
parsed JSON value. -/
structure PyEnv where
  jsonLoads : String → Option JValue
  pyStr : JValue → String

/-- `isinstance(data, dict)`. -/
def isDict : JValue → Bool
  | .obj _ => true
  | _ => false

/-- The payload extraction of `on_message`: parse the decoded text as
JSON; a mapping yields `title = data.get('title', topic)` and
`body = data.get('message', str(data))`; any parse failure or non-mapping
result falls back to `title = topic`, `body = text`.  Total: the
extraction cannot raise. -/
def parseTitleBody (env : PyEnv) (topic text : String) : JValue × JValue :=
  match env.jsonLoads text with
  | some d =>
    match d with
    | .obj fields =>
      ((fields.lookup "title").getD (.str topic),
       (fields.lookup "message").getD (.str (env.pyStr d)))
    | _ => (.str topic, .str text)
  | none => (.str topic, .str text)

/-- How jinja2 stringifies a substituted variable: a string renders as
itself, anything else through Python `str`. -/
def varStr (env : PyEnv) : JValue → String
  | .str s => s
  | v => env.pyStr v

/-- The variable mapping `render(title=title, topic=topic, body=body)` of
the source; any other name is undefined and renders as the empty
string. -/
def mkVars (env : PyEnv) (title body : JValue) (topic : String) :
    String → String :=
  fun n =>
    if n = "title" then varStr env title
    else if n = "topic" then topic
    else if n = "body" then varStr env body
    else ""

/-- Strip leading and trailing whitespace from a character list (the
whitespace stripping jinja2 applies to a placeholder's inner name). -/
def trimChars (cs : List Char) : List Char :=
  ((cs.dropWhile Char.isWhitespace).reverse.dropWhile
    Char.isWhitespace).reverse

/-- Scanner state of the template renderer: plain text, just saw one
opening brace, inside a placeholder (accumulated name), inside a
placeholder having just seen one closing brace. -/
inductive RMode where
  | text : RMode
  | sawOpen : RMode
  | var : List Char → RMode
  | varClose : List Char → RMode

/-- Modelled from the spec: the jinja2 rendering the source applies to
the title and body templates, restricted to the mini-language the spec
gives it — literal text interleaved with double-brace placeholders,
unknown placeholders rendering as the empty string, an unbalanced
placeholder being a syntax error (`none`, the `TemplateSyntaxError` of
jinja2). -/
def renderM (v : String → String) : RMode → List Char → Option String
  | .text, [] => some ""
  | .text, c :: rest =>
    if c = '\x7b' then renderM v .sawOpen rest
    else (renderM v .text rest).map (fun s => String.singleton c ++ s)
  | .sawOpen, [] => some (String.singleton '\x7b')
  | .sawOpen, c :: rest =>
    if c = '\x7b' then renderM v (.var []) rest
    else (renderM v .text rest).map
      (fun s => String.singleton '\x7b' ++ (String.singleton c ++ s))
  | .var _, [] => none
  | .var acc, c :: rest =>
    if c = '\x7d' then renderM v (.varClose acc) rest
    else renderM v (.var (acc ++ [c])) rest
  | .varClose _, [] => none
  | .varClose acc, c :: rest =>
    if c = '\x7d' then
      (renderM v .text rest).map
        (fun s => v (String.mk (trimChars acc)) ++ s)
    else renderM v (.var (acc ++ ['\x7d', c])) rest

/-- `jinja2.Template(t).render(...)` on a template string. -/
def renderS (v : String → String) (t : String) : Option String :=
  renderM v .text t.data

/-- One `Notify` call on the D-Bus notification interface, with the
arguments the source passes. -/
structure ServiceCall where
  app_name : String
  replaces_id : ℕ
  app_icon : String
  title : String
  body : String
  actions : List String
  hints : List (String × String)
  timeout_ms : ℤ

/-- The arguments `Notifier.notify` hands to
`self.notify_interface.Notify(APP_NAME, 0, "", title, body, [], {},
self.notification_duration*1000)`. -/
def mkCall (dur : ℤ) (title body : String) : ServiceCall :=
  { app_name := "mqtt", replaces_id := 0, app_icon := "", title := title,
    body := body, actions := [], hints := [],
    timeout_ms := dur * 1000 }

/-- Outcome of one `Notify` attempt, as the D-Bus collaborator reports
it: success, a `DBusException` whose text contains `ServiceUnknown`, or
any other `DBusException`. -/
inductive NotifyOutcome where
  | success : NotifyOutcome
  | serviceUnknown : NotifyOutcome
  | otherDBusError : NotifyOutcome

/-- What one run of `Notifier.notify` did: the service calls issued in
order, the `time.sleep` durations in order, how many `connect_dbus`
reconnects happened, and the final `self.back_off`. -/
structure NotifyResult where
  calls : List ServiceCall
  sleeps : List ℚ
  reconnects : ℕ
  back_off : ℚ

/-- The retry loop of `Notifier.notify`, driven by a script giving the
outcome of each successive `Notify` attempt.  On success the loop breaks
and `back_off` is reset to `BACK_OFF = 0`; on a ServiceUnknown error it
sleeps the current `back_off`, grows it, reconnects and retries the same
title and body; any other DBusException is re-raised, caught by the outer
handler, logged, and the notification dropped with `back_off` left as it
is.  An exhausted script ends the trace. -/
def notifyLoop (dur : ℤ) (title body : String) :
    ℚ → List NotifyOutcome → NotifyResult
  | b, [] => { calls := [], sleeps := [], reconnects := 0, back_off := b }
  | b, o :: rest =>
    match o with
    | .success =>
      { calls := [mkCall dur title body], sleeps := [], reconnects := 0,
        back_off := 0 }
    | .serviceUnknown =>
      let r := notifyLoop dur title body (backOffGrow b) rest
      { calls := mkCall dur title body :: r.calls, sleeps := b :: r.sleeps,
        reconnects := r.reconnects + 1, back_off := r.back_off }
    | .otherDBusError =>
      { calls := [mkCall dur title body], sleeps := [], reconnects := 0,
        back_off := b }

/-- The mutable attributes of `Notifier` that `notify` reads: the
`--test` flag, the notification duration, and the backoff delay. -/
structure NotifierState where
  test : Bool
  notification_duration : ℤ
  back_off : ℚ

/-- `Notifier.notify(title, body)`: in test mode log and return without
any call or state change; otherwise run the delivery loop. -/
def notify (st : NotifierState) (script : List NotifyOutcome)
    (title body : String) : NotifyResult :=
  if st.test then
    { calls := [], sleeps := [], reconnects := 0, back_off := st.back_off }
  else notifyLoop st.notification_duration title body st.back_off script

/-- `Notifier.on_message`: decode the payload, extract title and body,
resolve the topic's format (empty on no match), merge it over
`DEFAULT_FORMAT`, render the title and body templates (a template syntax
error escapes as `.error`), and deliver through `notify`. -/
def on_message (env : PyEnv) (topics : List (String × FormatEntry))
    (st : NotifierState) (script : List NotifyOutcome)
    (topic : String) (payload : List ℕ) : Except Unit NotifyResult :=
  let text := utf8DecodeStr payload
  let tb := parseTitleBody env topic text
  let fmt := mergeFmt DEFAULT_FORMAT (resolveFormat topics topic)
  let v := mkVars env tb.1 tb.2 topic
  match renderS v (fmt.title.getD "") with
  | none => .error ()
  | some rtitle =>
    match renderS v (fmt.body.getD "") with
    | none => .error ()
    | some rbody => .ok (notify st script rtitle rbody)

/-- One inbound broker message together with the D-Bus outcome script its
delivery will see. -/
structure SMsg where
  topic : String
  payload : List ℕ
  script : List NotifyOutcome

/-- One connection session: messages are processed synchronously in
arrival order, threading `back_off` through; an exception escaping
`on_message` propagates through the paho loop and tears the session down
(third component `true`), leaving the remaining messages unprocessed. -/
def runSession (env : PyEnv) (topics : List (String × FormatEntry))
    (test : Bool) (dur : ℤ) :
    List SMsg → ℚ → List NotifyResult × ℚ × Bool
  | [], b => ([], b, false)
  | m :: rest, b =>
    match on_message env topics ⟨test, dur, b⟩ m.script m.topic m.payload with
    | .error _ => ([], b, true)
    | .ok r =>
      let t := runSession env topics test dur rest r.back_off
      (r :: t.1, t.2.1, t.2.2)

/-- The restart loop of `main`: each session starts from a fresh
`Notifier` (backoff 0); after a session ends the loop goes on with the
next session's messages only in daemon mode, and breaks otherwise. -/
def runMain (env : PyEnv) (topics : List (String × FormatEntry))
    (test : Bool) (dur : ℤ) (daemonMode : Bool) :
    List (List SMsg) → List (List NotifyResult)
  | [] => []
  | s :: rest =>
    (runSession env topics test dur s 0).1 ::
      (if daemonMode then runMain env topics test dur daemonMode rest else [])

/-- A PyEnv for concrete runs: nothing parses as JSON. -/
def envNone : PyEnv := ⟨fun _ => none, fun _ => ""⟩

/-- A registry entry that only sets `muted = true`. -/
def mutedEntry : FormatEntry := { emptyFormat with muted := some true }

/-- A registry entry whose title template has an unclosed placeholder. -/
def badEntry : FormatEntry :=
  { emptyFormat with title := some "\x7b\x7btitle" }

/-- A registry with one malformed-template topic and one healthy one. -/
def sessionTopics : List (String × FormatEntry) :=
  [("bad", badEntry), ("good", emptyFormat)]

/-- A message on the malformed-template topic. -/
def badMsg : SMsg := ⟨"bad", [104, 105], [NotifyOutcome.success]⟩

/-- A message on the healthy topic. -/
def goodMsg : SMsg := ⟨"good", [111, 107], [NotifyOutcome.success]⟩

/-- A PyEnv whose parser recognises exactly the payload "hi" as the JSON
object with a single field title = "T", and whose str form of any value
is "D". -/
def envJson : PyEnv :=
  ⟨fun s => if s = "hi"
      then some (JValue.obj [("title", JValue.str "T")]) else none,
   fun _ => "D"⟩

/-- Does a character list start with an opening brace? -/
def headIsOpen : List Char → Bool
  | [] => false
  | c :: _ => c == '\x7b'

/-- Does a character list contain the two-character placeholder opening
delimiter anywhere? -/
def hasOpen : List Char → Bool
  | [] => false
  | c :: rest => (c == '\x7b' && headIsOpen rest) || hasOpen rest

theorem setKey_idem {α : Type} (a b : Option α) :
    setKey a (setKey a b) = setKey a b := by
  cases b with
  | some v => rfl
  | none => cases a <;> rfl

/-- C4: the field-wise merge of the default format with a resolved entry
is idempotent — merging the default below an already-merged entry changes
nothing — and for every key the merged result holds the entry's value
when the entry sets that key and the default's value otherwise. -/
theorem merge_default_idem_and_keywise :
    (∀ e : FormatEntry,
      mergeFmt DEFAULT_FORMAT (mergeFmt DEFAULT_FORMAT e)
        = mergeFmt DEFAULT_FORMAT e)
  ∧ (∀ d e : FormatEntry,
      (mergeFmt d e).title = (match e.title with
        | some v => some v
        | none => d.title)
      ∧ (mergeFmt d e).body = (match e.body with
        | some v => some v
        | none => d.body)
      ∧ (mergeFmt d e).icon = (match e.icon with
        | some v => some v
        | none => d.icon)
      ∧ (mergeFmt d e).urgency = (match e.urgency with
        | some v => some v
        | none => d.urgency)
      ∧ (mergeFmt d e).muted = (match e.muted with
        | some v => some v
        | none => d.muted)
      ∧ (mergeFmt d e).timeout = (match e.timeout with
        | some v => some v
        | none => d.timeout)
      ∧ (mergeFmt d e).category = (match e.category with
        | some v => some v
        | none => d.category)) := by
  constructor
  · intro e
    simp [mergeFmt, setKey_idem]
  · intro d e
    obtain ⟨t1, b1, i1, u1, m1, ti1, c1⟩ := e
    cases t1 <;> cases b1 <;> cases i1 <;> cases u1 <;> cases m1 <;>
      cases ti1 <;> cases c1 <;>
      exact ⟨rfl, rfl, rfl, rfl, rfl, rfl, rfl⟩

/-- C9: with the test flag set, `notify` issues no service call, sleeps
never, reconnects never, and leaves the backoff delay exactly as it was,
for every title, body, duration and outcome script. -/
theorem notify_test_mode_noop (dur : ℤ) (b : ℚ) (title body : String)
    (script : List NotifyOutcome) :
    notify ⟨true, dur, b⟩ script title body
      = { calls := [], sleeps := [], reconnects := 0, back_off := b } := by
  rfl

theorem specSeq_step (m : ℕ) :
    specSeq (m + 2) = min (specSeq (m + 1) * (3 / 2)) 300 := rfl

theorem specSeq_pos (k : ℕ) : 0 < specSeq (k + 1) := by
  induction k with
  | zero => norm_num [show specSeq 1 = 1 from rfl]
  | succ n ih =>
    rw [specSeq_step]
    exact lt_min (by positivity) (by norm_num)

theorem backOffGrow_specSeq (k : ℕ) :
    backOffGrow (specSeq k) = specSeq (k + 1) := by
  cases k with
  | zero =>
    rw [show specSeq 0 = 0 from rfl, show specSeq 1 = 1 from rfl,
      backOffGrow, if_pos rfl]
  | succ n =>
    have h := specSeq_pos n
    rw [backOffGrow, if_neg (ne_of_gt h), specSeq_step]
    norm_num [BACK_OFF_PROGRESSION, BACK_OFF_CUTOFF]

theorem notifyLoop_replicate (dur : ℤ) (title body : String) :
    ∀ (n k : ℕ),
      notifyLoop dur title body (specSeq k)
          (List.replicate n NotifyOutcome.serviceUnknown
            ++ [NotifyOutcome.success])
        = { calls := List.replicate (n + 1) (mkCall dur title body),
            sleeps := (List.range n).map (fun j => specSeq (k + j)),
            reconnects := n, back_off := 0 } := by
  intro n
  induction n with
  | zero => intro k; rfl
  | succ m ih =>
    intro k
    have step : List.replicate (m + 1) NotifyOutcome.serviceUnknown
        ++ [NotifyOutcome.success]
        = NotifyOutcome.serviceUnknown ::
          (List.replicate m NotifyOutcome.serviceUnknown
            ++ [NotifyOutcome.success]) := by
      simp [List.replicate_succ]
    rw [step, notifyLoop, backOffGrow_specSeq, ih (k + 1)]
    have hsleeps : (List.range (m + 1)).map (fun j => specSeq (k + j))
        = specSeq k :: (List.range m).map (fun j => specSeq (k + 1 + j)) := by
      rw [List.range_succ_eq_map]
      simp only [List.map_cons, Nat.add_zero, List.map_map]
      refine congrArg _ ?_
      refine List.map_congr_left ?_
      intro j _
      simp only [Function.comp_apply]
      exact congrArg specSeq (by omega)
    simp [hsleeps, List.replicate_succ]

theorem specSeq_le_300 (n : ℕ) : specSeq n ≤ 300 := by
  match n with
  | 0 => norm_num [show specSeq 0 = 0 from rfl]
  | 1 => norm_num [show specSeq 1 = 1 from rfl]
  | m + 2 =>
    rw [specSeq_step]
    exact min_le_right _ _

/-- C2: from a fresh dispatcher state, a run of n ServiceUnknown failures
followed by a success sleeps exactly the delays 0, 1, 1.5, 2.25, … of the
spec sequence (first failure turns 0 into 1, each later failure
multiplies by 1.5 and caps at 300), every such delay is at most 300, and
the backoff delay reads 0 again after any successful delivery. -/
theorem backoff_sequence_spec :
    (∀ (dur : ℤ) (title body : String) (n : ℕ),
      (notify ⟨false, dur, 0⟩
          (List.replicate n NotifyOutcome.serviceUnknown
            ++ [NotifyOutcome.success]) title body).sleeps
        = (List.range n).map specSeq)
  ∧ (∀ n : ℕ, specSeq n ≤ 300)
  ∧ specSeq 0 = 0 ∧ specSeq 1 = 1 ∧ specSeq 2 = 3 / 2 ∧ specSeq 3 = 9 / 4
  ∧ (∀ k : ℕ, specSeq (k + 2) = min (specSeq (k + 1) * (3 / 2)) 300)
  ∧ (∀ k : ℕ, backOffGrow (specSeq k) = specSeq (k + 1))
  ∧ (∀ (dur : ℤ) (title body : String) (n : ℕ),
      (notify ⟨false, dur, 0⟩
          (List.replicate n NotifyOutcome.serviceUnknown
            ++ [NotifyOutcome.success]) title body).back_off = 0)
  ∧ (∀ (dur : ℤ) (title body : String) (b : ℚ)
        (rest : List NotifyOutcome),
      (notifyLoop dur title body b (NotifyOutcome.success :: rest)).back_off
        = 0) := by
  have hrun : ∀ (dur : ℤ) (title body : String) (n : ℕ),
      notify ⟨false, dur, 0⟩
          (List.replicate n NotifyOutcome.serviceUnknown
            ++ [NotifyOutcome.success]) title body
        = { calls := List.replicate (n + 1) (mkCall dur title body),
            sleeps := (List.range n).map specSeq,
            reconnects := n, back_off := 0 } := by
    intro dur title body n
    have h := notifyLoop_replicate dur title body n 0
    rw [show specSeq 0 = (0 : ℚ) from rfl] at h
    rw [notify, if_neg (by simp)]
    show notifyLoop dur title body (0 : ℚ) _ = _
    rw [h]
    simp
  refine ⟨?_, specSeq_le_300, rfl, rfl, ?_, ?_, ?_, backOffGrow_specSeq,
      ?_, ?_⟩
  · intro dur title body n
    rw [hrun dur title body n]
  · rw [specSeq_step 0, show specSeq 1 = 1 from rfl]
    norm_num
  · show specSeq (1 + 2) = 9 / 4
    rw [specSeq_step 1, specSeq_step 0, show specSeq 1 = 1 from rfl]
    norm_num
  · intro k
    exact specSeq_step k
  · intro dur title body n
    rw [hrun dur title body n]
  · intro dur title body b rest
    rfl

theorem resolveFormat_eq_find (R : List (String × FormatEntry))
    (t : String) :
    resolveFormat R t
      = ((R.find? (fun p => topic_matches_sub p.1 t)).map Prod.snd).getD
          emptyFormat := by
  induction R with
  | nil => rfl
  | cons p rest ih =>
    cases h : topic_matches_sub p.1 t with
    | true =>
      simp only [resolveFormat, find_format, h, if_pos, List.find?_cons,
        Option.map_some, Option.getD_some]
      rfl
    | false =>
      simp only [resolveFormat, find_format, h] at ih ⊢
      rw [List.find?_cons_of_neg _ (by simp [h])]
      simpa using ih

/-- C1: format resolution returns the entry of the first pattern in
declaration order that matches the topic; with no match the pipeline
continues with the empty entry; and the matching itself has the broker
wildcard semantics — a single-level wildcard consumes exactly one
segment, a multi-level wildcard matches all remaining segments, a
literal segment must be equal, and matching is anchored at both ends. -/
theorem resolve_first_match_spec :
    (∀ (R : List (String × FormatEntry)) (t : String),
      resolveFormat R t
        = ((R.find? (fun p => topic_matches_sub p.1 t)).map Prod.snd).getD
            emptyFormat)
  ∧ (∀ (R : List (String × FormatEntry)) (t : String),
      (∀ p ∈ R, topic_matches_sub p.1 t = false) →
      resolveFormat R t = emptyFormat)
  ∧ (∀ sub topic : String,
      topic_matches_sub sub topic
        = wildMatch (splitSegs sub.data) (splitSegs topic.data))
  ∧ (∀ t : List String, wildMatch ["#"] t = true)
  ∧ (∀ (s t : List String) (x : String),
      wildMatch ("+" :: s) (x :: t) = wildMatch s t)
  ∧ (∀ s : List String, wildMatch ("+" :: s) [] = false)
  ∧ (∀ (x y : String) (s t : List String), x ≠ "#" → x ≠ "+" →
      wildMatch (x :: s) (y :: t) = (x == y && wildMatch s t))
  ∧ (∀ (x : String) (s : List String), x ≠ "#" →
      wildMatch (x :: s) [] = false)
  ∧ (∀ (y : String) (t : List String), wildMatch [] (y :: t) = false)
  ∧ wildMatch [] [] = true := by
  refine ⟨resolveFormat_eq_find, ?_, fun _ _ => rfl, ?_, ?_, ?_, ?_, ?_,
      fun _ _ => rfl, rfl⟩
  · intro R t h
    rw [resolveFormat_eq_find,
      List.find?_eq_none.mpr (by intro p hp; simp [h p hp])]
    rfl
  · intro t
    cases t with
    | nil => rfl
    | cons y ts => rfl
  · intro s t x
    rfl
  · intro s
    rfl
  · intro x y s t h1 h2
    simp only [wildMatch]
    rw [if_neg (by simp [h1]), if_neg (by simp [h2])]
  · intro x s h1
    simp only [wildMatch]
    simp [h1]

/-- Witness for C1 at concrete inputs: an unmatched registry resolves to
the empty entry, a literal segment matches by equality, and a
non-wildcard pattern does not match an exhausted topic. -/
theorem resolve_first_match_spec_witness :
    resolveFormat [("x/y", emptyFormat)] "a/b" = emptyFormat
  ∧ wildMatch ["a"] ["a"] = ("a" == "a" && wildMatch [] [])
  ∧ wildMatch ["a"] [] = false :=
  ⟨resolve_first_match_spec.2.1 [("x/y", emptyFormat)] "a/b" (by decide),
   resolve_first_match_spec.2.2.2.2.2.2.1 "a" "a" [] [] (by decide)
     (by decide),
   resolve_first_match_spec.2.2.2.2.2.2.2.1 "a" [] (by decide)⟩

theorem find_format_map (topics : List (String × FormatEntry))
    (topic : String) (f : FormatEntry → FormatEntry) :
    find_format (topics.map (fun p => (p.1, f p.2))) topic
      = (find_format topics topic).map f := by
  induction topics with
  | nil => rfl
  | cons p rest ih =>
    by_cases h : topic_matches_sub p.1 topic = true
    · simp [find_format, h]
    · simp [find_format, h, ih]

/-- The orchestrator reads nothing of a resolved entry but its title and
body templates: transforming every registry entry by a map that keeps
title and body leaves the whole per-message processing unchanged. -/
theorem on_message_only_title_body (env : PyEnv)
    (topics : List (String × FormatEntry)) (st : NotifierState)
    (script : List NotifyOutcome) (topic : String) (payload : List ℕ)
    (f : FormatEntry → FormatEntry)
    (hf : ∀ e, (f e).title = e.title ∧ (f e).body = e.body) :
    on_message env (topics.map (fun p => (p.1, f p.2))) st script topic
        payload
      = on_message env topics st script topic payload := by
  have ht : (mergeFmt DEFAULT_FORMAT
        (resolveFormat (topics.map (fun p => (p.1, f p.2))) topic)).title
      = (mergeFmt DEFAULT_FORMAT (resolveFormat topics topic)).title := by
    rw [resolveFormat, find_format_map, resolveFormat]
    cases find_format topics topic with
    | none => rfl
    | some e => simp [mergeFmt, (hf e).1]
  have hb : (mergeFmt DEFAULT_FORMAT
        (resolveFormat (topics.map (fun p => (p.1, f p.2))) topic)).body
      = (mergeFmt DEFAULT_FORMAT (resolveFormat topics topic)).body := by
    rw [resolveFormat, find_format_map, resolveFormat]
    cases find_format topics topic with
    | none => rfl
    | some e => simp [mergeFmt, (hf e).2]
  simp only [on_message]
  rw [ht, hb]

/-- C3 counterexample: a message whose resolved and merged format has
muted = true is nevertheless delivered — the pipeline issues a service
call for it (the source never reads a muted key). -/
theorem muted_counterexample :
    (mergeFmt DEFAULT_FORMAT (resolveFormat [("t", mutedEntry)] "t")).muted
        = some true
  ∧ on_message envNone [("t", mutedEntry)] ⟨false, 15, 0⟩
        [NotifyOutcome.success] "t" [104, 105]
      = .ok { calls := [mkCall 15 "t" "hi"], sleeps := [],
              reconnects := 0, back_off := 0 }
  ∧ [mkCall 15 "t" "hi"] ≠ ([] : List ServiceCall) :=
  ⟨rfl, rfl, by simp⟩

/-- C3 (amended): the muted field has no effect whatsoever — replacing
the muted field of every registry entry by anything leaves the entire
processing of every message, service calls included, unchanged; delivery
is never skipped because of it. -/
theorem muted_has_no_effect (env : PyEnv)
    (topics : List (String × FormatEntry)) (st : NotifierState)
    (script : List NotifyOutcome) (topic : String) (payload : List ℕ)
    (m : Option Bool) :
    on_message env
        (topics.map (fun p => (p.1, { p.2 with muted := m }))) st script
        topic payload
      = on_message env topics st script topic payload :=
  on_message_only_title_body env topics st script topic payload
    (fun e => { e with muted := m }) (fun _ => ⟨rfl, rfl⟩)

/-- C7 counterexample: a ServiceUnknown failure, a reconnect that
succeeds (the loop reaches a second attempt), and a second failure: the
sleep observed before handling the second failure is 1, not 0 — so the
successful reconnect did not reset the backoff delay before the retry,
as it would have had the claimed `Reconnecting → Connected` reset
happened. -/
theorem reconnect_reset_counterexample :
    (notifyLoop 15 "t" "b" 0
        [NotifyOutcome.serviceUnknown, NotifyOutcome.serviceUnknown,
          NotifyOutcome.success]).sleeps = [0, 1]
  ∧ ¬ (notifyLoop 15 "t" "b" 0
        [NotifyOutcome.serviceUnknown, NotifyOutcome.serviceUnknown,
          NotifyOutcome.success]).sleeps = [0, 0] :=
  ⟨rfl, by decide⟩

/-- C7 (amended): after the backoff sleep and the reconnect, the original
delivery is retried with the same title and body, but with the backoff
delay holding the grown value (1 after a first failure from 0) — the
delay is reset to 0 only once a delivery attempt succeeds. -/
theorem reconnect_retry_spec :
    (∀ (dur : ℤ) (title body : String) (b : ℚ)
        (rest : List NotifyOutcome),
      notifyLoop dur title body b (NotifyOutcome.serviceUnknown :: rest)
        = { calls := mkCall dur title body ::
              (notifyLoop dur title body (backOffGrow b) rest).calls,
            sleeps := b ::
              (notifyLoop dur title body (backOffGrow b) rest).sleeps,
            reconnects :=
              (notifyLoop dur title body (backOffGrow b) rest).reconnects
                + 1,
            back_off :=
              (notifyLoop dur title body (backOffGrow b) rest).back_off })
  ∧ (∀ (dur : ℤ) (title body : String) (b : ℚ)
        (rest : List NotifyOutcome),
      (notifyLoop dur title body b
          (NotifyOutcome.success :: rest)).back_off = 0)
  ∧ backOffGrow 0 = 1 := by
  refine ⟨?_, ?_, ?_⟩
  · intro dur title body b rest
    rfl
  · intro dur title body b rest
    rfl
  · rw [backOffGrow, if_pos rfl]

theorem notifyLoop_calls_eq (dur : ℤ) (title body : String) :
    ∀ (script : List NotifyOutcome) (b : ℚ) (c : ServiceCall),
      c ∈ (notifyLoop dur title body b script).calls →
      c = mkCall dur title body := by
  intro script
  induction script with
  | nil =>
    intro b c h
    simp [notifyLoop] at h
  | cons o rest ih =>
    intro b c h
    cases o with
    | success =>
      simp [notifyLoop] at h
      exact h
    | serviceUnknown =>
      simp only [notifyLoop, List.mem_cons] at h
      cases h with
      | inl h => exact h
      | inr h => exact ih (backOffGrow b) c h
    | otherDBusError =>
      simp [notifyLoop] at h
      exact h

/-- C10: every service call an actual (non-test) delivery makes carries
the constant arguments — app name "mqtt", replaces_id 0, empty app icon,
no actions, empty hints, and timeout equal to the notification duration
times 1000 ms — and the per-topic icon, urgency, timeout and category
fields never influence processing: replacing them all in every registry
entry changes nothing. -/
theorem delivery_args_constant :
    (∀ (dur : ℤ) (title body : String) (b : ℚ)
        (script : List NotifyOutcome) (c : ServiceCall),
      c ∈ (notify ⟨false, dur, b⟩ script title body).calls →
      c.app_name = "mqtt" ∧ c.replaces_id = 0 ∧ c.app_icon = ""
        ∧ c.actions = [] ∧ c.hints = [] ∧ c.timeout_ms = dur * 1000)
  ∧ (∀ (env : PyEnv) (topics : List (String × FormatEntry))
        (st : NotifierState) (script : List NotifyOutcome)
        (topic : String) (payload : List ℕ) (i u : Option String)
        (ti : Option ℚ) (cat : Option String),
      on_message env
          (topics.map (fun p => (p.1,
            { p.2 with
              icon := i,
              urgency := u,
              timeout := ti,
              category := cat }))) st script topic payload
        = on_message env topics st script topic payload) := by
  constructor
  · intro dur title body b script c h
    rw [notify, if_neg (by simp)] at h
    rw [notifyLoop_calls_eq dur title body script b c h]
    exact ⟨rfl, rfl, rfl, rfl, rfl, rfl⟩
  · intro env topics st script topic payload i u ti cat
    exact on_message_only_title_body env topics st script topic payload
      (fun e =>
        { e with
          icon := i,
          urgency := u,
          timeout := ti,
          category := cat }) (fun _ => ⟨rfl, rfl⟩)

/-- Witness for C10: the single call of a successful concrete delivery
carries the constant arguments. -/
theorem delivery_args_constant_witness :
    (mkCall 15 "t" "b").app_name = "mqtt"
  ∧ (mkCall 15 "t" "b").replaces_id = 0
  ∧ (mkCall 15 "t" "b").app_icon = ""
  ∧ (mkCall 15 "t" "b").actions = []
  ∧ (mkCall 15 "t" "b").hints = []
  ∧ (mkCall 15 "t" "b").timeout_ms = 15 * 1000 :=
  delivery_args_constant.1 15 "t" "b" 0 [NotifyOutcome.success]
    (mkCall 15 "t" "b") (by simp [notify, notifyLoop])

/-- C6 counterexample: a malformed template for the first message makes
the session stop with nothing delivered — the second message, although
perfectly processable on its own (second conjunct), is never processed
in that session. -/
theorem render_error_counterexample :
    runSession envNone sessionTopics false 15 [badMsg, goodMsg] 0
      = ([], 0, true)
  ∧ on_message envNone sessionTopics ⟨false, 15, 0⟩ goodMsg.script
        goodMsg.topic goodMsg.payload
      = .ok { calls := [mkCall 15 "good" "ok"], sleeps := [],
              reconnects := 0, back_off := 0 } :=
  ⟨rfl, rfl⟩

/-- C6 (amended): an exception while rendering one message's templates
terminates the current session — the remaining messages of that session
are not processed; a fresh session is then started for later messages
only in daemon mode, while a one-shot run stops after the failed
session. -/
theorem render_error_terminates_session :
    (∀ (env : PyEnv) (topics : List (String × FormatEntry)) (test : Bool)
        (dur : ℤ) (m : SMsg) (rest : List SMsg) (b : ℚ),
      on_message env topics ⟨test, dur, b⟩ m.script m.topic m.payload
          = .error () →
      runSession env topics test dur (m :: rest) b = ([], b, true))
  ∧ (∀ (env : PyEnv) (topics : List (String × FormatEntry)) (test : Bool)
        (dur : ℤ) (s : List SMsg) (rest : List (List SMsg)),
      runMain env topics test dur true (s :: rest)
        = (runSession env topics test dur s 0).1
            :: runMain env topics test dur true rest)
  ∧ (∀ (env : PyEnv) (topics : List (String × FormatEntry)) (test : Bool)
        (dur : ℤ) (s : List SMsg) (rest : List (List SMsg)),
      runMain env topics test dur false (s :: rest)
        = [(runSession env topics test dur s 0).1]) := by
  refine ⟨?_, ?_, ?_⟩
  · intro env topics test dur m rest b h
    simp only [runSession]
    rw [h]
  · intro env topics test dur s rest
    simp [runMain]
  · intro env topics test dur s rest
    simp [runMain]

/-- Witness for C6 (amended) at a concrete failing message: the session
holding only the malformed-template message ends torn down with nothing
delivered. -/
theorem render_error_terminates_session_witness :
    runSession envNone sessionTopics false 15 [badMsg] 0 = ([], 0, true) :=
  render_error_terminates_session.1 envNone sessionTopics false 15 badMsg
    [] 0 rfl

theorem utf8Decode_ascii :
    ∀ bs : List ℕ, (∀ x ∈ bs, x < 128) → utf8Decode bs = bs := by
  intro bs
  induction bs with
  | nil => intro h; rfl
  | cons b rest ih =>
    intro h
    rw [utf8Decode.eq_def]
    have hb : b < 128 := h b (by simp)
    simp only [hb, if_pos]
    rw [ih (fun x hx => h x (by simp [hx]))]

/-- C5: the payload pipeline decodes the raw bytes as UTF-8 dropping
invalid bytes (ASCII passes through unchanged, an impossible lead byte or
a stray continuation byte is dropped), and then extracts title and body:
a JSON object gives title from its 'title' field (defaulting to the
topic) and body from its 'message' field (defaulting to the str form of
the whole object); a parse failure or a non-object result falls back to
the topic as title and the decoded text as body; the extraction is a
total function — it cannot raise. -/
theorem payload_extraction_spec :
    (∀ (env : PyEnv) (topic : String) (payload : List ℕ)
        (fields : List (String × JValue)),
      env.jsonLoads (utf8DecodeStr payload) = some (JValue.obj fields) →
      parseTitleBody env topic (utf8DecodeStr payload)
        = ((fields.lookup "title").getD (.str topic),
           (fields.lookup "message").getD
             (.str (env.pyStr (JValue.obj fields)))))
  ∧ (∀ (env : PyEnv) (topic : String) (payload : List ℕ),
      env.jsonLoads (utf8DecodeStr payload) = none →
      parseTitleBody env topic (utf8DecodeStr payload)
        = (.str topic, .str (utf8DecodeStr payload)))
  ∧ (∀ (env : PyEnv) (topic : String) (payload : List ℕ) (v : JValue),
      env.jsonLoads (utf8DecodeStr payload) = some v → isDict v = false →
      parseTitleBody env topic (utf8DecodeStr payload)
        = (.str topic, .str (utf8DecodeStr payload)))
  ∧ (∀ bs : List ℕ, (∀ x ∈ bs, x < 128) → utf8Decode bs = bs)
  ∧ (∀ (b : ℕ) (bs : List ℕ), 245 ≤ b →
      utf8Decode (b :: bs) = utf8Decode bs)
  ∧ (∀ (b : ℕ) (bs : List ℕ), 128 ≤ b → b < 194 →
      utf8Decode (b :: bs) = utf8Decode bs) := by
  refine ⟨?_, ?_, ?_, utf8Decode_ascii, ?_, ?_⟩
  · intro env topic payload fields h
    simp only [parseTitleBody]
    rw [h]
  · intro env topic payload h
    simp only [parseTitleBody]
    rw [h]
  · intro env topic payload v h hv
    simp only [parseTitleBody]
    rw [h]
    cases v with
    | obj fields => simp [isDict] at hv
    | null => rfl
    | boolean b => rfl
    | num q => rfl
    | str s => rfl
    | arr xs => rfl
  · intro b bs h
    rw [utf8Decode.eq_def]
    have h0 : ¬ b < 128 := by omega
    have h1 : ¬ b < 194 := by omega
    have h2 : ¬ b ≤ 223 := by omega
    have h3 : ¬ b ≤ 239 := by omega
    have h4 : ¬ b ≤ 244 := by omega
    simp only [h0, h1, h2, h3, h4, if_neg, if_false]
  · intro b bs h1 h2
    rw [utf8Decode.eq_def]
    have h0 : ¬ b < 128 := by omega
    simp only [h0, h2, if_neg, if_pos, if_false, if_true]

/-- Witness for C5 at concrete inputs: the payload "hi" parsed as an
object takes its title field and the str form of the object as body; the
decode facts at concrete bytes. -/
theorem payload_extraction_spec_witness :
    parseTitleBody envJson "top" (utf8DecodeStr [104, 105])
      = (JValue.str "T", JValue.str "D")
  ∧ utf8Decode [104, 105] = [104, 105]
  ∧ utf8Decode [255, 104] = utf8Decode [104]
  ∧ utf8Decode [128, 104] = utf8Decode [104] := by
  refine ⟨?_, ?_, ?_, ?_⟩
  · have h := payload_extraction_spec.1 envJson "top" [104, 105]
      [("title", JValue.str "T")] (by rfl)
    simpa using h
  · exact payload_extraction_spec.2.2.2.1 [104, 105] (by decide)
  · exact payload_extraction_spec.2.2.2.2.1 255 [104] (by decide)
  · exact payload_extraction_spec.2.2.2.2.2 128 [104] (by decide)
      (by decide)

theorem strmk_cons (c : Char) (l : List Char) :
    String.singleton c ++ String.mk l = String.mk (c :: l) := rfl

theorem str_append_empty (s : String) : s ++ "" = s := by
  cases s with
  | mk l =>
    show String.mk (l ++ []) = String.mk l
    rw [List.append_nil]

theorem str_data_append (a b : String) :
    (a ++ b).data = a.data ++ b.data := by
  cases a
  cases b
  rfl

theorem renderM_text_cons (v : String → String) (c : Char)
    (rest : List Char) :
    renderM v RMode.text (c :: rest)
      = if c = '\x7b' then renderM v RMode.sawOpen rest
        else (renderM v RMode.text rest).map
          (fun s => String.singleton c ++ s) := rfl

theorem renderM_sawOpen_cons (v : String → String) (c : Char)
    (rest : List Char) :
    renderM v RMode.sawOpen (c :: rest)
      = if c = '\x7b' then renderM v (RMode.var []) rest
        else (renderM v RMode.text rest).map
          (fun s => String.singleton '\x7b' ++ (String.singleton c ++ s))
      := rfl

theorem renderM_var_cons (v : String → String) (acc : List Char)
    (c : Char) (rest : List Char) :
    renderM v (RMode.var acc) (c :: rest)
      = if c = '\x7d' then renderM v (RMode.varClose acc) rest
        else renderM v (RMode.var (acc ++ [c])) rest := rfl

theorem renderM_varClose_cons (v : String → String) (acc : List Char)
    (c : Char) (rest : List Char) :
    renderM v (RMode.varClose acc) (c :: rest)
      = if c = '\x7d' then
          (renderM v RMode.text rest).map
            (fun s => v (String.mk (trimChars acc)) ++ s)
        else renderM v (RMode.var (acc ++ ['\x7d', c])) rest := rfl

theorem hasOpen_cons (c : Char) (rest : List Char) :
    hasOpen (c :: rest)
      = ((c == '\x7b' && headIsOpen rest) || hasOpen rest) := rfl

theorem renderM_literal (v : String → String) :
    ∀ cs : List Char, hasOpen cs = false →
      renderM v RMode.text cs = some (String.mk cs)
  | [], _ => rfl
  | [c], h => by
    rw [renderM_text_cons]
    by_cases hc : c = '\x7b'
    · subst hc
      rw [if_pos rfl]
      rfl
    · rw [if_neg hc]
      show some (String.singleton c ++ "") = _
      rw [str_append_empty]
      rfl
  | c1 :: c2 :: rest, h => by
    have hr : hasOpen (c2 :: rest) = false := by
      rw [hasOpen_cons] at h
      exact (Bool.or_eq_false_iff.mp h).2
    rw [renderM_text_cons]
    by_cases hc1 : c1 = '\x7b'
    · subst hc1
      rw [if_pos rfl, renderM_sawOpen_cons]
      have hc2 : ¬ c2 = '\x7b' := by
        rw [hasOpen_cons] at h
        have hx := (Bool.or_eq_false_iff.mp h).1
        simpa [headIsOpen] using hx
      rw [if_neg hc2]
      have hrest : hasOpen rest = false := by
        rw [hasOpen_cons] at hr
        exact (Bool.or_eq_false_iff.mp hr).2
      rw [renderM_literal v rest hrest]
      show some (String.singleton '\x7b'
          ++ (String.singleton c2 ++ String.mk rest)) = _
      rw [strmk_cons, strmk_cons]
    · rw [if_neg hc1, renderM_literal v (c2 :: rest) hr]
      show some (String.singleton c1 ++ String.mk (c2 :: rest)) = _
      rw [strmk_cons]
termination_by cs _ => cs.length

theorem renderM_close (v : String → String) :
    ∀ (cs acc : List Char), (∀ c ∈ cs, ¬ c = '\x7d') →
      renderM v (RMode.var acc) (cs ++ ['\x7d', '\x7d'])
        = some (v (String.mk (trimChars (acc ++ cs)))) := by
  intro cs
  induction cs with
  | nil =>
    intro acc h
    show renderM v (RMode.var acc) ('\x7d' :: '\x7d' :: []) = _
    rw [renderM_var_cons, if_pos rfl, renderM_varClose_cons, if_pos rfl]
    show some (v (String.mk (trimChars acc)) ++ "") = _
    rw [str_append_empty, List.append_nil]
  | cons c cs ih =>
    intro acc h
    have hc : ¬ c = '\x7d' := h c (by simp)
    show renderM v (RMode.var acc) (c :: (cs ++ ['\x7d', '\x7d'])) = _
    rw [renderM_var_cons, if_neg hc,
      ih (acc ++ [c]) (fun x hx => h x (by simp [hx])),
      List.append_assoc]
    rfl

/-- C8: rendering a template containing no placeholder opening delimiter
returns the text unchanged for every assignment of the variables title,
topic and body; and rendering a placeholder whose (trimmed) name is none
of the supplied variables substitutes the empty string, raising no
error. -/
theorem render_literal_and_unknown :
    (∀ (env : PyEnv) (title body : JValue) (topic t : String),
      hasOpen t.data = false →
      renderS (mkVars env title body topic) t = some t)
  ∧ (∀ (env : PyEnv) (title body : JValue) (topic nm : String),
      (∀ c ∈ nm.data, ¬ c = '\x7b' ∧ ¬ c = '\x7d') →
      ¬ String.mk (trimChars nm.data) = "title" →
      ¬ String.mk (trimChars nm.data) = "topic" →
      ¬ String.mk (trimChars nm.data) = "body" →
      renderS (mkVars env title body topic)
          ("\x7b\x7b" ++ nm ++ "\x7d\x7d") = some "") := by
  constructor
  · intro env title body topic t h
    obtain ⟨cs⟩ := t
    exact renderM_literal _ cs h
  · intro env title body topic nm h h1 h2 h3
    obtain ⟨cs⟩ := nm
    show renderM (mkVars env title body topic) RMode.text
        ("\x7b\x7b" ++ String.mk cs ++ "\x7d\x7d").data = some ""
    have hd : ("\x7b\x7b" ++ String.mk cs ++ "\x7d\x7d").data
        = '\x7b' :: '\x7b' :: (cs ++ ['\x7d', '\x7d']) := by
      rw [str_data_append, str_data_append]
      simp
    rw [hd, renderM_text_cons, if_pos rfl, renderM_sawOpen_cons,
      if_pos rfl,
      renderM_close (mkVars env title body topic) cs []
        (fun c hc => (h c hc).2)]
    show some (mkVars env title body topic (String.mk (trimChars cs)))
        = some ""
    simp only [mkVars]
    rw [if_neg h1, if_neg h2, if_neg h3]

/-- Witness for C8 at concrete inputs: a literal template renders
unchanged and an unknown placeholder renders empty. -/
theorem render_literal_and_unknown_witness :
    renderS (mkVars envNone (JValue.str "T") (JValue.str "B") "top")
        "hello" = some "hello"
  ∧ renderS (mkVars envNone (JValue.str "T") (JValue.str "B") "top")
        "\x7b\x7bfoo\x7d\x7d" = some "" :=
  ⟨render_literal_and_unknown.1 envNone (JValue.str "T") (JValue.str "B")
      "top" "hello" (by decide),
   render_literal_and_unknown.2 envNone (JValue.str "T") (JValue.str "B")
      "top" "foo" (by decide) (by decide) (by decide) (by decide)⟩
